import Mathlib

/-!
Shallow embedding of `outrigger/psi/compute.py` (the per-sample / per-event
percent-spliced-in decision procedure) and proofs about the claims of the
specification.

Modelling conventions:

* A pandas `Series` of junction read counts is a `List ℕ` (read counts are
  non-negative integers); a float-valued series (after reduction) is a
  `List ℚ`.
* A Python function that may return either a `Series`, `None` or the string
  value used by the undefined-case sentinel is modelled with the `PyVal`
  inductive below.
* The multi-indexed (junction, sample) read table of `_filter_and_scale` is a
  `List ((String × String) × ℚ)` of ((junction, sample), reads) entries;
  `groupby(level=1)` is grouping by the second key component.
* Python exceptions (the `NameError` raised by the parallel branch of
  `_maybe_parallelize_psi`) are modelled by an `Option` result, `Option.none`
  meaning the call raises instead of returning.
-/

/-- Result values of the classifier: a kept read series, Python `None`, or a
plain string (the source returns the string `???` from its fallthrough). -/
inductive PyVal where
  | series (l : List ℕ)
  | pynone
  | pystr (s : String)
deriving DecidableEq

/-- One sample's row of the per-event read table, already sliced into the
isoform1, isoform2 and illegal junction columns (the source slices the same
columns with `sample[isoform1_ids]`, `sample[isoform2_ids]` and
`reads[illegal_ids]`). -/
structure SampleRow where
  sample_id : String
  iso1 : List ℕ
  iso2 : List ℕ
  illegal : List ℕ
deriving DecidableEq

/-- Embedding of `_single_sample_check_unequal_read_coverage` (compute.py
lines 171-210).  The source first tests `len(isoform) == 1` and accepts;
otherwise it compares `isoform.iloc[0]` and `isoform.iloc[1]` against
`(isoform * multiplier).iloc[1]` and `.iloc[0]`.  An empty series would raise
`IndexError` in the source; that case is modelled as passthrough and is not
relied on by any claim (event isoforms always have at least one junction). -/
def _single_sample_check_unequal_read_coverage (isoform : List ℕ) (multiplier : ℕ) :
    Option (List ℕ) :=
  match isoform with
  | [_] => some isoform
  | j0 :: j1 :: _ =>
      if j0 > j1 ∧ j0 > j1 * multiplier then Option.none
      else if j1 > j0 ∧ j1 > j0 * multiplier then Option.none
      else some isoform
  | [] => some isoform

/-- Embedding of `_single_sample_maybe_sufficient_reads` (compute.py lines
135-168).  The def header in the source reads `min_reads, case letters="ab"`,
which is a Python `SyntaxError` (a missing comma); the docstring and every
call site treat `case` and `letters` as two separate parameters (`letters`
defaulting to `"ab"`), so the function is modelled that way.  `letters[0]`
and `letters[1]` are modelled with `String.take`/`String.drop`. -/
def _single_sample_maybe_sufficient_reads (isoform1 isoform2 : List ℕ)
    (n_junctions min_reads : ℕ) (case letters : String) : PyVal × PyVal × String :=
  if isoform1.sum + isoform2.sum ≥ min_reads * n_junctions then
    (PyVal.series isoform1, PyVal.series isoform2,
      case ++ ", option " ++ letters.take 1 ++ ": There are sufficient junction reads")
  else
    (PyVal.pynone, PyVal.pynone,
      case ++ ", option " ++ (letters.drop 1).take 1 ++ ": There are insufficient junction reads")

/-- Embedding of `_single_isoform_maybe_reject` (compute.py lines 311-409).
The source rebinds `isoform1`/`isoform2` to the Coverage Filter's return
value and tests `is None`; since the filter returns either `None` or its
input unchanged (lemma `check_unequal_read_coverage_none_or_self` below), the
original lists are used after the `None` test.  The `.all()` / `.any()`
conditions of the pandas comparisons become bounded quantifiers.  The
branches are in source order: case 0 (unequal coverage), cases 1-4, the
deferring cases 5-8, case 9 with sub-cases 9a/9b and the 9c/9d deferral with
`letters="cd"`, the duplicated case-10 guard, and the `Case ???`
fallthrough. -/
def _single_isoform_maybe_reject (isoform1 isoform2 : List ℕ)
    (n_junctions min_reads multiplier : ℕ) : PyVal × PyVal × String :=
  if _single_sample_check_unequal_read_coverage isoform1 multiplier = Option.none ∨
      _single_sample_check_unequal_read_coverage isoform2 multiplier = Option.none then
    (PyVal.pynone, PyVal.pynone, "Case 0: Unequal read coverage")
  else if (∀ x ∈ isoform1, x ≥ min_reads) ∧ (∀ x ∈ isoform2, x = 0) then
    (PyVal.series isoform1, PyVal.series isoform2, "Case 1: Perfect exclusion")
  else if (∀ x ∈ isoform1, x = 0) ∧ (∀ x ∈ isoform2, x ≥ min_reads) then
    (PyVal.series isoform1, PyVal.series isoform2, "Case 2: Perfect inclusion")
  else if (∀ x ∈ isoform1, x ≥ min_reads) ∧ (∀ x ∈ isoform2, x ≥ min_reads) then
    (PyVal.series isoform1, PyVal.series isoform2, "Case 3: Sufficient coverage on both isoforms")
  else if (∃ x ∈ isoform1, x = 0) ∨ (∃ x ∈ isoform2, x = 0) then
    (PyVal.pynone, PyVal.pynone,
      "Case 4: Any observed junction is zero and it\x27s not all of one isoform")
  else if (∀ x ∈ isoform1, x ≥ min_reads) ∧ (∀ x ∈ isoform2, x < min_reads) then
    _single_sample_maybe_sufficient_reads isoform1 isoform2 n_junctions min_reads
      ("Case 5: Isoform1 totally covered and isoform2 not") ("ab")
  else if (∀ x ∈ isoform1, x < min_reads) ∧ (∀ x ∈ isoform2, x ≥ min_reads) then
    _single_sample_maybe_sufficient_reads isoform1 isoform2 n_junctions min_reads
      ("Case 6: Isoform2 is totally covered and isoform1 is not") ("ab")
  else if (∀ x ∈ isoform1, x ≥ min_reads) ∧ (∃ x ∈ isoform2, x < min_reads) then
    _single_sample_maybe_sufficient_reads isoform1 isoform2 n_junctions min_reads
      ("Case 7: Isoform 1 is fully covered and isoform2 is questionable") ("ab")
  else if (∃ x ∈ isoform1, x < min_reads) ∧ (∀ x ∈ isoform2, x ≥ min_reads) then
    _single_sample_maybe_sufficient_reads isoform1 isoform2 n_junctions min_reads
      ("Case 8: Isoform 1 is fully covered and isoform2 is questionable") ("ab")
  else if (∃ x ∈ isoform1, x < min_reads) ∨ (∃ x ∈ isoform2, x < min_reads) then
    if (∀ x ∈ isoform1, x < min_reads) ∧ (∃ x ∈ isoform2, x < min_reads) then
      (PyVal.pynone, PyVal.pynone,
        "Case 9a: 3 junctions have less than minimum reads (2 on iso1 and 1 on iso2)")
    else if (∃ x ∈ isoform1, x < min_reads) ∧ (∀ x ∈ isoform2, x < min_reads) then
      (PyVal.pynone, PyVal.pynone,
        "Case 9b: 3 junctions have less than minimum reads (2 on iso2 and one on iso1)")
    else
      _single_sample_maybe_sufficient_reads isoform1 isoform2 n_junctions min_reads
        ("Case 9: Insufficient reads somehow") ("cd")
  else if (∃ x ∈ isoform1, x < min_reads) ∨ (∃ x ∈ isoform2, x < min_reads) then
    (PyVal.pynone, PyVal.pynone, "Case 10: isoform1 and isoform2 don\x27t have sufficient reads")
  else
    (PyVal.pystr ("???"), PyVal.pystr ("???"), "Case ???")

/-- Embedding of `_single_maybe_reject` (compute.py lines 260-307): classify
one row; if the first returned component `is None` the reads are replaced by
an all-NA row (modelled as `Option.none`), otherwise the original row is
kept; the case string is attached either way. -/
def _single_maybe_reject (sample : SampleRow) (n_junctions min_reads multiplier : ℕ) :
    Option SampleRow × String :=
  let r := _single_isoform_maybe_reject sample.iso1 sample.iso2 n_junctions min_reads multiplier
  if r.1 = PyVal.pynone then (Option.none, r.2.2) else (some sample, r.2.2)

/-- Embedding of `_maybe_reject` (compute.py lines 213-257).  When
`illegal_ids` is not null (`pd.isnull`), rows whose illegal-junction reads
are `>= min_reads` are removed (`reads.loc[~samples_with_illegal_coverage]`,
the defined single-illegal-junction behavior), then `_single_maybe_reject`
is applied per remaining row.  The source's final transposition of the
per-row results with `zip(*...)` is not modelled; the per-row results are
returned directly (their consumer, `_single_event_psi`, discards them). -/
def _maybe_reject (reads : List SampleRow) (illegal_ids : Option (List String))
    (n_junctions min_reads multiplier : ℕ) : List (Option SampleRow × String) :=
  let reads2 :=
    match illegal_ids with
    | Option.none => reads
    | some _ => reads.filter (fun r => !(decide (∃ x ∈ r.illegal, x ≥ min_reads)))
  reads2.map (fun r => _single_maybe_reject r n_junctions min_reads multiplier)

/-- Embedding of `_single_event_psi` (compute.py lines 412-483) for one event
whose rows have already been sliced to the event's junction columns (the
source builds `reads = junction_reads_2d[junction_cols]`).  After computing
`_maybe_reject`, the source hits a leftover debugger breakpoint
(`import pdb; pdb.set_trace()`, line 446) followed by a bare `return`
(line 447), so the function always returns `None`; everything below those
two lines (the `_filter_and_scale` reduction, `_remove_insufficient_reads`
and the `psi = isoform2 / (isoform2 + isoform1)` computation) is dead code,
and it would raise `NameError` anyway because `isoform1` / `isoform2` are
never assigned in the function body. -/
def _single_event_psi (event_id : String) (reads : List SampleRow)
    (illegal_ids : Option (List String)) (n_junctions min_reads : ℕ)
    (method : String) (multiplier : ℕ) : Option (String × List (String × ℚ)) :=
  let maybe_rejected := _maybe_reject reads illegal_ids n_junctions min_reads multiplier
  let _ := maybe_rejected
  let _ := event_id
  let _ := method
  Option.none

/-- Embedding of `_scale` (compute.py lines 15-20): `mean` sums the group and
divides by the junction count, `min` takes the group minimum (`None` is
returned implicitly for any other method; an empty group's `min()` is
modelled by `List.min?`).  `min_reads` is accepted and unused, as in the
source. -/
def _scale (x : List ℚ) (n_junctions : ℕ) (method : String) (min_reads : ℕ) : Option ℚ :=
  if method = "mean" then some (x.sum / (n_junctions : ℚ))
  else if method = "min" then x.min?
  else Option.none

/-- The entries of one sample (`reads.groupby(level=1)` group for key `s`). -/
def sample_entries (reads : List ((String × String) × ℚ)) (s : String) :
    List ((String × String) × ℚ) :=
  reads.filter (fun e => e.1.2 == s)

/-- The `reads.groupby(level=1).filter(lambda x: len(x) == n_junctions)` step
of `_filter_and_scale` (lines 46-49), which is only applied when
`n_junctions > 1`: an entry is kept iff its sample's group has exactly
`n_junctions` entries. -/
def _filter_incomplete (reads : List ((String × String) × ℚ)) (n_junctions : ℕ) :
    List ((String × String) × ℚ) :=
  if n_junctions > 1 then
    reads.filter (fun e => (sample_entries reads e.1.2).length == n_junctions)
  else reads

/-- Embedding of `_filter_and_scale` (compute.py lines 23-59): empty input is
returned unchanged; with more than one junction, samples whose group does not
have exactly `n_junctions` entries are removed; each remaining group is
reduced with `_scale` (`groupby(level=1).apply`).  Group keys are listed in
order of first appearance (pandas sorts them; no claim depends on the
order).  The `debug` parameter only toggles logging and is omitted. -/
def _filter_and_scale (reads : List ((String × String) × ℚ)) (n_junctions min_reads : ℕ)
    (method : String) : List (String × Option ℚ) :=
  if reads = [] then []
  else
    ((_filter_incomplete reads n_junctions).map (fun e => e.1.2)).dedup.map
      (fun s =>
        (s, _scale ((sample_entries (_filter_incomplete reads n_junctions) s).map (fun e => e.2))
          n_junctions method min_reads))

/-- One event's input to the PSI table builder: event id, the sliced read
rows, the illegal junction ids (or null), and `n_junctions`. -/
abbrev EventInput := String × List SampleRow × Option (List String) × ℕ

/-- Embedding of `_maybe_parallelize_psi` (compute.py lines 486-527).  With
`n_jobs == 1` the loop calls `_single_event_psi` per event but appends
nothing to `psis` (the `psis.append(...)` lines are commented out), so the
empty list is returned.  In the parallel branch (any other `n_jobs`) line 519
binds the results to `outputs` while line 527 returns the never-assigned name
`psis`, raising `NameError` (modelled as `Option.none`; there is also a
leftover `pdb.set_trace()` breakpoint at line 525). -/
def _maybe_parallelize_psi (events : List EventInput) (min_reads : ℕ) (method : String)
    (multiplier : ℕ) (n_jobs : Int) : Option (List (Option (String × List (String × ℚ)))) :=
  if n_jobs = 1 then
    let _ := events.map (fun e =>
      _single_event_psi e.1 e.2.1 e.2.2.1 e.2.2.2 min_reads method multiplier)
    some []
  else
    Option.none

/-- Embedding of `calculate_psi` (compute.py lines 530-588).  `sample_index`
stands for `junction_reads_2d.index.levels[1]`, the full sample set of the
read-count table.  `None` outputs are filtered out; `pd.concat` of an empty
collection raises `ValueError`, which is caught and replaced by an empty
table indexed by the sample set with no columns.  A `NameError` escaping
`_maybe_parallelize_psi` propagates (`Option.none`). -/
def calculate_psi (events : List EventInput) (sample_index : List String) (min_reads : ℕ)
    (method : String) (multiplier : ℕ) (n_jobs : Int) :
    Option (List String × List (String × List (String × ℚ))) :=
  match _maybe_parallelize_psi events min_reads method multiplier n_jobs with
  | Option.none => Option.none
  | some psis =>
    match psis.filterMap id with
    | [] => some (sample_index, [])
    | cols => some (((cols.map (fun c => c.2.map (fun p => p.1))).flatten).dedup, cols)

/-! Helper lemmas (shared; none of these is a claim's theorem). -/

/-- Reduction of the Coverage Filter on a series with at least two values. -/
theorem check_unequal_cons_cons (a b : ℕ) (rest : List ℕ) (multiplier : ℕ) :
    _single_sample_check_unequal_read_coverage (a :: b :: rest) multiplier =
      if a > b ∧ a > b * multiplier then Option.none
      else if b > a ∧ b > a * multiplier then Option.none
      else some (a :: b :: rest) := rfl

/-- The Coverage Filter is a pure predicate-plus-passthrough: it returns
either `None` or its input unchanged.  This justifies using the original
lists after the `is None` test in `_single_isoform_maybe_reject`. -/
theorem check_unequal_read_coverage_none_or_self (isoform : List ℕ) (multiplier : ℕ) :
    _single_sample_check_unequal_read_coverage isoform multiplier = Option.none ∨
      _single_sample_check_unequal_read_coverage isoform multiplier = some isoform := by
  match isoform with
  | [] => exact Or.inr rfl
  | [x] => exact Or.inr rfl
  | a :: b :: rest =>
    rw [check_unequal_cons_cons]
    split_ifs <;> simp

/-- C1: Coverage Filter contract.  An isoform with exactly one junction is
always accepted unchanged; with two or more junctions, letting `a`, `b` be
the first two read counts and `m` the multiplier, the filter rejects
(returns no reads) iff `a > b ∧ a > m * b` or `b > a ∧ b > m * a`, and
otherwise returns the original reads unchanged. -/
theorem check_unequal_read_coverage_contract (isoform : List ℕ) (multiplier : ℕ) :
    (isoform.length = 1 →
      _single_sample_check_unequal_read_coverage isoform multiplier = some isoform) ∧
    (∀ a b rest, isoform = a :: b :: rest →
      ((_single_sample_check_unequal_read_coverage isoform multiplier = Option.none) ↔
        ((a > b ∧ a > multiplier * b) ∨ (b > a ∧ b > multiplier * a))) ∧
      (¬((a > b ∧ a > multiplier * b) ∨ (b > a ∧ b > multiplier * a)) →
        _single_sample_check_unequal_read_coverage isoform multiplier = some isoform)) := by
  constructor
  · intro h
    match isoform, h with
    | [x], _ => rfl
  · rintro a b rest rfl
    rw [Nat.mul_comm multiplier b, Nat.mul_comm multiplier a, check_unequal_cons_cons]
    constructor
    · split_ifs with h1 h2
      · exact iff_of_true rfl (Or.inl h1)
      · exact iff_of_true rfl (Or.inr h2)
      · exact iff_of_false (by simp) (by tauto)
    · intro hno
      split_ifs with h1 h2
      · exact absurd (Or.inl h1) hno
      · exact absurd (Or.inr h2) hno
      · rfl

/-- C1 witness: at `[40, 500]` with multiplier 10 the filter rejects
(`500 > 40` and `500 > 10 * 40`), and a single-junction isoform `[12]` passes
through unchanged. -/
theorem check_unequal_read_coverage_contract_witness :
    _single_sample_check_unequal_read_coverage [40, 500] 10 = Option.none ∧
    _single_sample_check_unequal_read_coverage [12] 10 = some [12] :=
  ⟨((check_unequal_read_coverage_contract [40, 500] 10).2 40 500 [] rfl).1.mpr
      (Or.inr (by decide)),
    (check_unequal_read_coverage_contract [12] 10).1 rfl⟩

/-- C2 counterexample: the input isoform1 = [15, 5], isoform2 = [15, 5] with
min_reads = 10, n_junctions = 4 reaches the deferring rule 9c and is
accepted (total reads 40 ≥ 40), but its case label carries the suffix
"option c" (rule 9 passes `letters="cd"`), not "option a" as the claim
states for every deferring rule. -/
theorem maybe_sufficient_reads_letters_counterexample :
    _single_isoform_maybe_reject [15, 5] [15, 5] 4 10 10 =
      (PyVal.series [15, 5], PyVal.series [15, 5],
        "Case 9: Insufficient reads somehow, option c: There are sufficient junction reads") ∧
    (_single_isoform_maybe_reject [15, 5] [15, 5] 4 10 10).2.2 ≠
      "Case 9: Insufficient reads somehow, option a: There are sufficient junction reads" := by
  constructor
  · decide
  · decide

/-- C2 (amended): the total-reads check accepts with the original reads iff
`sum(isoform1) + sum(isoform2) ≥ min_reads * n_junctions` and otherwise
rejects; the case label is suffixed "option a"/"option b" for the
rules that pass `letters="ab"` (rules 5-8) and "option c"/"option d" for
rule 9c, which passes `letters="cd"`. -/
theorem maybe_sufficient_reads_amended (isoform1 isoform2 : List ℕ)
    (n_junctions min_reads : ℕ) (case : String) :
    (isoform1.sum + isoform2.sum ≥ min_reads * n_junctions →
      _single_sample_maybe_sufficient_reads isoform1 isoform2 n_junctions min_reads case ("ab") =
        (PyVal.series isoform1, PyVal.series isoform2,
          case ++ ", option a: There are sufficient junction reads") ∧
      _single_sample_maybe_sufficient_reads isoform1 isoform2 n_junctions min_reads case ("cd") =
        (PyVal.series isoform1, PyVal.series isoform2,
          case ++ ", option c: There are sufficient junction reads")) ∧
    (isoform1.sum + isoform2.sum < min_reads * n_junctions →
      _single_sample_maybe_sufficient_reads isoform1 isoform2 n_junctions min_reads case ("ab") =
        (PyVal.pynone, PyVal.pynone,
          case ++ ", option b: There are insufficient junction reads") ∧
      _single_sample_maybe_sufficient_reads isoform1 isoform2 n_junctions min_reads case ("cd") =
        (PyVal.pynone, PyVal.pynone,
          case ++ ", option d: There are insufficient junction reads")) := by
  unfold _single_sample_maybe_sufficient_reads
  constructor
  · intro h
    rw [if_pos h, if_pos h]
    constructor
    · rw [String.append_assoc, String.append_assoc]
      exact congrArg (fun t => (PyVal.series isoform1, PyVal.series isoform2, case ++ t))
        (show ", option " ++ (("ab").take 1 ++ ": There are sufficient junction reads") =
          ", option a: There are sufficient junction reads" by decide)
    · rw [String.append_assoc, String.append_assoc]
      exact congrArg (fun t => (PyVal.series isoform1, PyVal.series isoform2, case ++ t))
        (show ", option " ++ (("cd").take 1 ++ ": There are sufficient junction reads") =
          ", option c: There are sufficient junction reads" by decide)
  · intro h
    rw [if_neg (not_le.mpr h), if_neg (not_le.mpr h)]
    constructor
    · rw [String.append_assoc, String.append_assoc]
      exact congrArg (fun t => (PyVal.pynone, PyVal.pynone, case ++ t))
        (show ", option " ++ ((("ab").drop 1).take 1 ++ ": There are insufficient junction reads") =
          ", option b: There are insufficient junction reads" by decide)
    · rw [String.append_assoc, String.append_assoc]
      exact congrArg (fun t => (PyVal.pynone, PyVal.pynone, case ++ t))
        (show ", option " ++ ((("cd").drop 1).take 1 ++ ": There are insufficient junction reads") =
          ", option d: There are insufficient junction reads" by decide)

/-- C2 witness: isoform1 = [12], isoform2 = [9], min_reads = 10,
n_junctions = 2 (total 21 ≥ 20) is accepted with the "option a" suffix. -/
theorem maybe_sufficient_reads_amended_witness :
    _single_sample_maybe_sufficient_reads [12] [9] 2 10
        ("Case 7: Isoform 1 is fully covered and isoform2 is questionable") ("ab") =
      (PyVal.series [12], PyVal.series [9],
        "Case 7: Isoform 1 is fully covered and isoform2 is questionable, option a: There are sufficient junction reads") :=
  ((maybe_sufficient_reads_amended [12] [9] 2 10
      ("Case 7: Isoform 1 is fully covered and isoform2 is questionable")).1 (by decide)).1

/-- Reduction of `_single_maybe_reject` to its two outcomes. -/
theorem single_maybe_reject_def (sample : SampleRow) (n_junctions min_reads multiplier : ℕ) :
    _single_maybe_reject sample n_junctions min_reads multiplier =
      if (_single_isoform_maybe_reject sample.iso1 sample.iso2 n_junctions min_reads
          multiplier).1 = PyVal.pynone then
        (Option.none,
          (_single_isoform_maybe_reject sample.iso1 sample.iso2 n_junctions min_reads
            multiplier).2.2)
      else
        (some sample,
          (_single_isoform_maybe_reject sample.iso1 sample.iso2 n_junctions min_reads
            multiplier).2.2) := rfl

/-- Reduction of `_maybe_reject` when the illegal junction ids are not null. -/
theorem maybe_reject_some_def (reads : List SampleRow) (ids : List String)
    (n_junctions min_reads multiplier : ℕ) :
    _maybe_reject reads (some ids) n_junctions min_reads multiplier =
      (reads.filter (fun r => !(decide (∃ x ∈ r.illegal, x ≥ min_reads)))).map
        (fun r => _single_maybe_reject r n_junctions min_reads multiplier) := rfl

/-- C3: the per-event PSI computation is cut short.  For every event and
every input, `_single_event_psi` returns `None` (the source hits a leftover
`pdb.set_trace()` and a bare `return` at lines 446-447 before any
reduction or PSI division is performed), so no sample ever receives a PSI
value, contrary to the claimed `isoform2 / (isoform1 + isoform2)` output for
retained samples. -/
theorem single_event_psi_always_none (event_id : String) (reads : List SampleRow)
    (illegal_ids : Option (List String)) (n_junctions min_reads : ℕ)
    (method : String) (multiplier : ℕ) :
    _single_event_psi event_id reads illegal_ids n_junctions min_reads method multiplier =
      Option.none := rfl

/-- C4: illegal-junction short-circuit.  For an event with illegal junctions,
a sample row with read count `≥ min_reads` on an illegal junction is removed
from the event's reads before classification — no classification output ever
carries that row — and (the event's PSI output being always `None`, see
lines 446-447) the sample never appears in the event's PSI output. -/
theorem maybe_reject_illegal_short_circuit (reads : List SampleRow)
    (illegal_junction_ids : List String) (n_junctions min_reads multiplier : ℕ)
    (row : SampleRow) (hmem : row ∈ reads) (hbad : ∃ x ∈ row.illegal, x ≥ min_reads) :
    (∀ out ∈ _maybe_reject reads (some illegal_junction_ids) n_junctions min_reads multiplier,
      out.1 ≠ some row) ∧
    (∀ event_id method,
      _single_event_psi event_id reads (some illegal_junction_ids) n_junctions min_reads
        method multiplier = Option.none) := by
  constructor
  · intro out hout
    rw [maybe_reject_some_def] at hout
    obtain ⟨r, hr, rfl⟩ := List.mem_map.mp hout
    obtain ⟨hr_mem, hr_keep⟩ := List.mem_filter.mp hr
    rw [single_maybe_reject_def]
    split_ifs with hnone
    · simp
    · simp only [ne_eq, Option.some.injEq]
      rintro rfl
      rw [decide_eq_true hbad] at hr_keep
      simp at hr_keep
  · intro _ _
    rfl

/-- C4 witness: a concrete sample with an illegal-junction read count of 12
(min_reads = 10) is excluded from the event. -/
theorem maybe_reject_illegal_short_circuit_witness :
    (∀ out ∈ _maybe_reject [⟨("s1"), [20], [20], [12]⟩] (some [("jx")]) 2 10 10,
      out.1 ≠ some ⟨("s1"), [20], [20], [12]⟩) ∧
    (∀ event_id method,
      _single_event_psi event_id [⟨("s1"), [20], [20], [12]⟩] (some [("jx")]) 2 10
        method 10 = Option.none) :=
  maybe_reject_illegal_short_circuit [⟨("s1"), [20], [20], [12]⟩] [("jx")] 2 10 10
    ⟨("s1"), [20], [20], [12]⟩ (by decide) (by decide)

/-- C5 counterexample: isoform1 = [15, 5], isoform2 = [12] with
min_reads = 10, n_junctions = 3 satisfies rule 8's condition
(`any(isoform1 < min_reads)` and `all(isoform2 >= min_reads)`, no earlier
rule matching), and the classifier does defer to the total-reads check, but
the attached case label is the rule-7 wording "Case 8: Isoform 1 is fully
covered and isoform2 is questionable", not the claimed label "Isoform1
questionable, isoform2 fully covered". -/
theorem rule8_label_counterexample :
    _single_isoform_maybe_reject [15, 5] [12] 3 10 10 =
      (PyVal.series [15, 5], PyVal.series [12],
        "Case 8: Isoform 1 is fully covered and isoform2 is questionable, option a: There are sufficient junction reads") ∧
    (_single_isoform_maybe_reject [15, 5] [12] 3 10 10).2.2 ≠
      "Isoform1 questionable, isoform2 fully covered" := by
  constructor
  · decide
  · decide

/-- C5 (amended): for every pair of isoform read vectors that passes the
Coverage Filter and matches none of rules 1-7, if
`any(isoform1 < min_reads)` and `all(isoform2 >= min_reads)` then the
classifier defers to the total-reads check with the case label
"Case 8: Isoform 1 is fully covered and isoform2 is questionable" (the
rule-7 wording with the rule-8 number) and `letters="ab"`. -/
theorem rule8_defers_total_reads_check (isoform1 isoform2 : List ℕ)
    (n_junctions min_reads multiplier : ℕ)
    (hcov1 : _single_sample_check_unequal_read_coverage isoform1 multiplier = some isoform1)
    (hcov2 : _single_sample_check_unequal_read_coverage isoform2 multiplier = some isoform2)
    (hr1 : ¬((∀ x ∈ isoform1, x ≥ min_reads) ∧ (∀ x ∈ isoform2, x = 0)))
    (hr2 : ¬((∀ x ∈ isoform1, x = 0) ∧ (∀ x ∈ isoform2, x ≥ min_reads)))
    (hr3 : ¬((∀ x ∈ isoform1, x ≥ min_reads) ∧ (∀ x ∈ isoform2, x ≥ min_reads)))
    (hr4 : ¬((∃ x ∈ isoform1, x = 0) ∨ (∃ x ∈ isoform2, x = 0)))
    (hr5 : ¬((∀ x ∈ isoform1, x ≥ min_reads) ∧ (∀ x ∈ isoform2, x < min_reads)))
    (hr6 : ¬((∀ x ∈ isoform1, x < min_reads) ∧ (∀ x ∈ isoform2, x ≥ min_reads)))
    (hr7 : ¬((∀ x ∈ isoform1, x ≥ min_reads) ∧ (∃ x ∈ isoform2, x < min_reads)))
    (hr8 : (∃ x ∈ isoform1, x < min_reads) ∧ (∀ x ∈ isoform2, x ≥ min_reads)) :
    _single_isoform_maybe_reject isoform1 isoform2 n_junctions min_reads multiplier =
      _single_sample_maybe_sufficient_reads isoform1 isoform2 n_junctions min_reads
        ("Case 8: Isoform 1 is fully covered and isoform2 is questionable") ("ab") := by
  unfold _single_isoform_maybe_reject
  rw [if_neg (by simp [hcov1, hcov2]), if_neg hr1, if_neg hr2, if_neg hr3, if_neg hr4,
    if_neg hr5, if_neg hr6, if_neg hr7, if_pos hr8]

/-- C5 witness: isoform1 = [15, 3], isoform2 = [11] with min_reads = 10
reaches rule 8 and is handed to the total-reads check with the duplicated
label. -/
theorem rule8_defers_total_reads_check_witness :
    _single_isoform_maybe_reject [15, 3] [11] 3 10 10 =
      _single_sample_maybe_sufficient_reads [15, 3] [11] 3 10
        ("Case 8: Isoform 1 is fully covered and isoform2 is questionable") ("ab") :=
  rule8_defers_total_reads_check [15, 3] [11] 3 10 10 (by decide) (by decide) (by decide)
    (by decide) (by decide) (by decide) (by decide) (by decide) (by decide) (by decide)

/-- Membership in a sample's group. -/
theorem mem_sample_entries {reads : List ((String × String) × ℚ)} {s : String}
    {e : (String × String) × ℚ} :
    e ∈ sample_entries reads s ↔ e ∈ reads ∧ e.1.2 = s := by
  simp [sample_entries, List.mem_filter]

/-- Membership after the incomplete-sample filter. -/
theorem mem_filter_incomplete {reads : List ((String × String) × ℚ)} {n_junctions : ℕ}
    {e : (String × String) × ℚ} :
    e ∈ _filter_incomplete reads n_junctions ↔
      e ∈ reads ∧ (n_junctions > 1 → (sample_entries reads e.1.2).length = n_junctions) := by
  unfold _filter_incomplete
  split_ifs with hn
  · simp [List.mem_filter, hn]
  · simp [hn]

/-- If the (junction, sample) keys of the read table are distinct, then the
junction components of one sample's group are distinct. -/
theorem sample_entries_junction_nodup (reads : List ((String × String) × ℚ)) (s : String)
    (hkey : (reads.map (fun e => e.1)).Nodup) :
    ((sample_entries reads s).map (fun e => e.1.1)).Nodup := by
  have hsub0 : List.Sublist (sample_entries reads s) reads := List.filter_sublist reads
  have hnd : ((sample_entries reads s).map (fun e => e.1)).Nodup :=
    (hsub0.map (fun e => e.1)).nodup hkey
  have hmm : (sample_entries reads s).map (fun e => e.1.1) =
      ((sample_entries reads s).map (fun e => e.1)).map (fun k => k.1) := by
    rw [List.map_map]
    rfl
  rw [hmm]
  refine hnd.map_on ?_
  intro x hx y hy hxy
  obtain ⟨ex, hex, rfl⟩ := List.mem_map.mp hx
  obtain ⟨ey, hey, rfl⟩ := List.mem_map.mp hy
  have hxs := (mem_sample_entries.mp hex).2
  have hys := (mem_sample_entries.mp hey).2
  exact Prod.ext hxy (hxs.trans hys.symm)

/-- If a sample's group has exactly as many entries as there are junctions,
it has an entry for every junction (the keys being distinct and drawn from
the junction list). -/
theorem sample_entries_complete (reads : List ((String × String) × ℚ)) (junctions : List String)
    (s : String)
    (hkey : (reads.map (fun e => e.1)).Nodup)
    (hjmem : ∀ e ∈ reads, e.1.1 ∈ junctions)
    (hjnd : junctions.Nodup)
    (hlen : (sample_entries reads s).length = junctions.length) :
    ∀ j ∈ junctions, ∃ e ∈ reads, e.1 = (j, s) := by
  intro j hj
  have hMnd : ((sample_entries reads s).map (fun e => e.1.1)).Nodup :=
    sample_entries_junction_nodup reads s hkey
  have hMsub : ∀ m ∈ (sample_entries reads s).map (fun e => e.1.1), m ∈ junctions := by
    intro m hm
    obtain ⟨e, he, rfl⟩ := List.mem_map.mp hm
    exact hjmem e (mem_sample_entries.mp he).1
  have hMlen : ((sample_entries reads s).map (fun e => e.1.1)).length = junctions.length := by
    rw [List.length_map]
    exact hlen
  have hfin : ((sample_entries reads s).map (fun e => e.1.1)).toFinset = junctions.toFinset := by
    apply Finset.eq_of_subset_of_card_le
    · intro x hx
      rw [List.mem_toFinset] at hx ⊢
      exact hMsub x hx
    · rw [List.toFinset_card_of_nodup hMnd, List.toFinset_card_of_nodup hjnd, hMlen]
  have hjM : j ∈ (sample_entries reads s).map (fun e => e.1.1) := by
    have hj2 : j ∈ junctions.toFinset := List.mem_toFinset.mpr hj
    rw [← hfin] at hj2
    exact List.mem_toFinset.mp hj2
  obtain ⟨e, he, hej⟩ := List.mem_map.mp hjM
  exact ⟨e, (mem_sample_entries.mp he).1, Prod.ext hej (mem_sample_entries.mp he).2⟩

/-- Conversely, a sample with an entry for every junction has a group of
exactly `junctions.length` entries. -/
theorem sample_entries_length_of_complete (reads : List ((String × String) × ℚ))
    (junctions : List String) (s : String)
    (hkey : (reads.map (fun e => e.1)).Nodup)
    (hjmem : ∀ e ∈ reads, e.1.1 ∈ junctions)
    (hjnd : junctions.Nodup)
    (hall : ∀ j ∈ junctions, ∃ e ∈ reads, e.1 = (j, s)) :
    (sample_entries reads s).length = junctions.length := by
  have hMnd : ((sample_entries reads s).map (fun e => e.1.1)).Nodup :=
    sample_entries_junction_nodup reads s hkey
  have hMsub : ∀ m ∈ (sample_entries reads s).map (fun e => e.1.1), m ∈ junctions := by
    intro m hm
    obtain ⟨e, he, rfl⟩ := List.mem_map.mp hm
    exact hjmem e (mem_sample_entries.mp he).1
  have hsubJM : ∀ j ∈ junctions, j ∈ (sample_entries reads s).map (fun e => e.1.1) := by
    intro j hj
    obtain ⟨e, he, he1⟩ := hall j hj
    have hes : e ∈ sample_entries reads s := mem_sample_entries.mpr ⟨he, by rw [he1]⟩
    exact List.mem_map.mpr ⟨e, hes, by rw [he1]⟩
  have hfin : ((sample_entries reads s).map (fun e => e.1.1)).toFinset = junctions.toFinset := by
    apply Finset.Subset.antisymm
    · intro x hx
      rw [List.mem_toFinset] at hx ⊢
      exact hMsub x hx
    · intro x hx
      rw [List.mem_toFinset] at hx ⊢
      exact hsubJM x hx
  calc (sample_entries reads s).length
      = ((sample_entries reads s).map (fun e => e.1.1)).length := (List.length_map _ _).symm
    _ = ((sample_entries reads s).map (fun e => e.1.1)).toFinset.card :=
        (List.toFinset_card_of_nodup hMnd).symm
    _ = junctions.toFinset.card := by rw [hfin]
    _ = junctions.length := List.toFinset_card_of_nodup hjnd

/-- For a sample whose group has exactly `n_junctions` entries, the
incomplete-sample filter does not change its group. -/
theorem filter_incomplete_group_eq (reads : List ((String × String) × ℚ)) (n_junctions : ℕ)
    (s : String) (hcount : (sample_entries reads s).length = n_junctions) :
    sample_entries (_filter_incomplete reads n_junctions) s = sample_entries reads s := by
  unfold _filter_incomplete
  split_ifs with hn
  · unfold sample_entries
    rw [List.filter_filter]
    apply List.filter_congr
    intro e he
    by_cases hs : e.1.2 = s
    · rw [hs]
      have hc2 : (sample_entries reads s).length == n_junctions := by
        rw [hcount]
        simp
      unfold sample_entries at hc2
      rw [hc2]
      simp
    · have hs2 : (e.1.2 == s) = false := beq_eq_false_iff_ne.mpr hs
      rw [hs2]
      simp
  · rfl

/-- C6: Event Reducer postcondition.  For a non-empty per-junction read
table of one isoform (with distinct (junction, sample) keys drawn from the
isoform's distinct junction list), every sample appearing in the output has
a read entry for every one of the isoform's junctions; the reduced value of
a retained sample is the sum of its junction reads divided by the junction
count for method "mean" and the minimum across its junction reads for
method "min"; and empty input is returned unchanged (empty output). -/
theorem filter_and_scale_spec (reads : List ((String × String) × ℚ)) (junctions : List String)
    (min_reads : ℕ) (method : String)
    (hjnd : junctions.Nodup)
    (hkey : (reads.map (fun e => e.1)).Nodup)
    (hjmem : ∀ e ∈ reads, e.1.1 ∈ junctions) :
    (_filter_and_scale [] junctions.length min_reads method = []) ∧
    (∀ s v, (s, v) ∈ _filter_and_scale reads junctions.length min_reads method →
      (∀ j ∈ junctions, ∃ e ∈ reads, e.1 = (j, s)) ∧
      (method = "mean" →
        v = some (((sample_entries reads s).map (fun e => e.2)).sum / (junctions.length : ℚ))) ∧
      (method = "min" → v = ((sample_entries reads s).map (fun e => e.2)).min?)) ∧
    (∀ s, (∃ e ∈ reads, e.1.2 = s) → (∀ j ∈ junctions, ∃ e ∈ reads, e.1 = (j, s)) →
      ∃ v, (s, v) ∈ _filter_and_scale reads junctions.length min_reads method) := by
  refine ⟨rfl, ?_, ?_⟩
  · intro s v hmemv
    have hne : reads ≠ [] := by
      rintro rfl
      simp [_filter_and_scale] at hmemv
    unfold _filter_and_scale at hmemv
    rw [if_neg hne] at hmemv
    obtain ⟨s2, hs2, heq⟩ := List.mem_map.mp hmemv
    obtain ⟨rfl, rfl⟩ := Prod.mk.injEq .. |>.mp heq
    obtain ⟨e, he, hes⟩ := List.mem_map.mp (List.mem_dedup.mp hs2)
    obtain ⟨he_reads, he_count⟩ := mem_filter_incomplete.mp he
    by_cases hn : junctions.length > 1
    · have hcount : (sample_entries reads s2).length = junctions.length := by
        rw [← hes]
        exact he_count hn
      have hgroup := filter_incomplete_group_eq reads junctions.length s2 hcount
      refine ⟨sample_entries_complete reads junctions s2 hkey hjmem hjnd hcount, ?_, ?_⟩
      · intro hmethod
        rw [hgroup, hmethod]
        unfold _scale
        rw [if_pos rfl]
      · intro hmethod
        rw [hgroup, hmethod]
        unfold _scale
        rw [if_neg (by decide), if_pos rfl]
    · have hfi : _filter_incomplete reads junctions.length = reads := by
        unfold _filter_incomplete
        rw [if_neg hn]
      have hj1 : ∃ j0, junctions = [j0] := by
        have hjne : junctions ≠ [] := by
          rintro rfl
          exact absurd (hjmem e he_reads) (List.not_mem_nil _)
        have : junctions.length = 1 := by
          have := List.length_pos.mpr hjne
          omega
        exact List.length_eq_one.mp this
      obtain ⟨j0, rfl⟩ := hj1
      refine ⟨?_, ?_, ?_⟩
      · intro j hj
        have hej : e.1.1 = j0 := List.mem_singleton.mp (hjmem e he_reads)
        have hjj : j = j0 := List.mem_singleton.mp hj
        exact ⟨e, he_reads, Prod.ext (hej.trans hjj.symm) hes⟩
      · intro hmethod
        rw [hfi, hmethod]
        unfold _scale
        rw [if_pos rfl]
      · intro hmethod
        rw [hfi, hmethod]
        unfold _scale
        rw [if_neg (by decide), if_pos rfl]
  · intro s hentry hall
    obtain ⟨e0, he0, he0s⟩ := hentry
    have hne : reads ≠ [] := by
      rintro rfl
      exact absurd he0 (List.not_mem_nil _)
    unfold _filter_and_scale
    rw [if_neg hne]
    refine ⟨_, List.mem_map.mpr ⟨s, ?_, rfl⟩⟩
    apply List.mem_dedup.mpr
    apply List.mem_map.mpr
    refine ⟨e0, mem_filter_incomplete.mpr ⟨he0, fun _ => ?_⟩, he0s⟩
    rw [he0s]
    exact sample_entries_length_of_complete reads junctions s hkey hjmem hjnd hall

/-- C6 witness: for the table with sample s1 having reads 10 and 20 on the
two junctions and sample s2 having only one junction entry, s1 is retained
and reduces to 15 under method "mean". -/
theorem filter_and_scale_spec_witness :
    (∃ v, (("s1"), v) ∈ _filter_and_scale
      [((("j1"), ("s1")), (10 : ℚ)), ((("j2"), ("s1")), 20), ((("j1"), ("s2")), 7)]
      2 10 ("mean")) ∧
    (∀ v, (("s1"), v) ∈ _filter_and_scale
      [((("j1"), ("s1")), (10 : ℚ)), ((("j2"), ("s1")), 20), ((("j1"), ("s2")), 7)]
      2 10 ("mean") →
      v = some 15) := by
  constructor
  · exact (filter_and_scale_spec
      [((("j1"), ("s1")), (10 : ℚ)), ((("j2"), ("s1")), 20), ((("j1"), ("s2")), 7)]
      [("j1"), ("j2")] 10 ("mean") (by decide) (by decide) (by decide)).2.2
      ("s1") (by decide) (by decide)
  · intro v hv
    have h := ((filter_and_scale_spec
      [((("j1"), ("s1")), (10 : ℚ)), ((("j2"), ("s1")), 20), ((("j1"), ("s2")), 7)]
      [("j1"), ("j2")] 10 ("mean") (by decide) (by decide) (by decide)).2.1
      ("s1") v hv).2.1 rfl
    rw [h]
    have hse : sample_entries
        [((("j1"), ("s1")), (10 : ℚ)), ((("j2"), ("s1")), 20), ((("j1"), ("s2")), 7)] ("s1") =
        [((("j1"), ("s1")), (10 : ℚ)), ((("j2"), ("s1")), 20)] := by decide
    rw [hse]
    norm_num

/-- C9: on the empty-result path, `calculate_psi` with sequential execution
(`n_jobs = 1`) returns the well-formed empty table indexed by the full
sample set with no columns; but with the default `n_jobs = -1` the call
raises `NameError` instead of returning (the parallel branch of
`_maybe_parallelize_psi` binds its outputs to `outputs` on line 519 and then
returns the never-assigned name `psis` on line 527, behind the leftover
`pdb.set_trace()` breakpoint on line 525), contradicting the claim for
every non-sequential input. -/
theorem calculate_psi_empty_result :
    calculate_psi [(("ev1"), [⟨("s1"), [20], [20], []⟩], Option.none, 2)]
        [("s1"), ("s2")] 10 ("mean") 10 (-1) = Option.none ∧
    calculate_psi [(("ev1"), [⟨("s1"), [20], [20], []⟩], Option.none, 2)]
        [("s1"), ("s2")] 10 ("mean") 10 1 = some ([("s1"), ("s2")], []) := by
  constructor
  · rfl
  · rfl

/-- C10: a two-junction isoform with exactly one zero junction and one
positive junction is rejected by the Coverage Filter for every multiplier
(the positive side exceeds `multiplier * 0 = 0`), so the Sample Classifier
returns "Case 0: Unequal read coverage" whenever such an isoform appears in
either position, and rule 4 is never the outcome for these inputs. -/
theorem zero_junction_coverage_rejected (a b multiplier : ℕ)
    (h : (a = 0 ∧ 0 < b) ∨ (0 < a ∧ b = 0)) :
    _single_sample_check_unequal_read_coverage [a, b] multiplier = Option.none ∧
    (∀ other n_junctions min_reads,
      _single_isoform_maybe_reject [a, b] other n_junctions min_reads multiplier =
        (PyVal.pynone, PyVal.pynone, "Case 0: Unequal read coverage") ∧
      _single_isoform_maybe_reject other [a, b] n_junctions min_reads multiplier =
        (PyVal.pynone, PyVal.pynone, "Case 0: Unequal read coverage")) := by
  have hchk : _single_sample_check_unequal_read_coverage [a, b] multiplier = Option.none := by
    rw [check_unequal_cons_cons]
    rcases h with ⟨rfl, hb⟩ | ⟨ha, rfl⟩
    · rw [if_neg (by simp), if_pos ⟨hb, by simpa using hb⟩]
    · rw [if_pos ⟨ha, by simpa using ha⟩]
  refine ⟨hchk, fun other n_junctions min_reads => ⟨?_, ?_⟩⟩
  · unfold _single_isoform_maybe_reject
    rw [if_pos (Or.inl hchk)]
  · unfold _single_isoform_maybe_reject
    rw [if_pos (Or.inr hchk)]

/-- C10 witness: the isoform [7, 0] is rejected already with multiplier 0,
and the classifier reports case 0 with it in either isoform position. -/
theorem zero_junction_coverage_rejected_witness :
    _single_sample_check_unequal_read_coverage [7, 0] 0 = Option.none ∧
    _single_isoform_maybe_reject [7, 0] [3] 2 10 0 =
      (PyVal.pynone, PyVal.pynone, "Case 0: Unequal read coverage") :=
  ⟨(zero_junction_coverage_rejected 7 0 0 (Or.inr ⟨by decide, rfl⟩)).1,
    ((zero_junction_coverage_rejected 7 0 0 (Or.inr ⟨by decide, rfl⟩)).2 [3] 2 10).1⟩

/-- The label produced by the total-reads check always extends its `case`
argument. -/
theorem maybe_sufficient_reads_case_extends (isoform1 isoform2 : List ℕ)
    (n_junctions min_reads : ℕ) (case letters : String) :
    ∃ t, (_single_sample_maybe_sufficient_reads isoform1 isoform2 n_junctions min_reads
      case letters).2.2 = case ++ t := by
  unfold _single_sample_maybe_sufficient_reads
  split_ifs
  · exact ⟨_, by rw [String.append_assoc, String.append_assoc]⟩
  · exact ⟨_, by rw [String.append_assoc, String.append_assoc]⟩

/-- A string that starts with a long prefix is not a shorter string. -/
theorem append_ne_of_length_lt (a t b : String) (h : b.length < a.length) : a ++ t ≠ b := by
  intro hc
  have hl := congrArg String.length hc
  rw [String.length_append] at hl
  omega

/-- C7: the "Case ???" sentinel is unreachable.  For every pair of non-empty
isoform read vectors (well-formed two/three-junction events), the Sample
Classifier produces one of the case-0 to case-9 outcomes and never the
undefined "Case ???" sentinel: whenever every rule up to 9 fails, both
isoforms have all junctions `≥ min_reads`, so rule 3 would already have
fired. -/
theorem case_sentinel_unreachable (isoform1 isoform2 : List ℕ)
    (n_junctions min_reads multiplier : ℕ) (hne1 : isoform1 ≠ []) (hne2 : isoform2 ≠ []) :
    (_single_isoform_maybe_reject isoform1 isoform2 n_junctions min_reads multiplier).2.2 ≠
      "Case ???" := by
  unfold _single_isoform_maybe_reject
  by_cases hc : _single_sample_check_unequal_read_coverage isoform1 multiplier = Option.none ∨
      _single_sample_check_unequal_read_coverage isoform2 multiplier = Option.none
  · rw [if_pos hc]
    exact (by decide : ¬("Case 0: Unequal read coverage" = "Case ???"))
  rw [if_neg hc]
  by_cases g1 : (∀ x ∈ isoform1, x ≥ min_reads) ∧ (∀ x ∈ isoform2, x = 0)
  · rw [if_pos g1]
    exact (by decide : ¬("Case 1: Perfect exclusion" = "Case ???"))
  rw [if_neg g1]
  by_cases g2 : (∀ x ∈ isoform1, x = 0) ∧ (∀ x ∈ isoform2, x ≥ min_reads)
  · rw [if_pos g2]
    exact (by decide : ¬("Case 2: Perfect inclusion" = "Case ???"))
  rw [if_neg g2]
  by_cases g3 : (∀ x ∈ isoform1, x ≥ min_reads) ∧ (∀ x ∈ isoform2, x ≥ min_reads)
  · rw [if_pos g3]
    exact (by decide : ¬("Case 3: Sufficient coverage on both isoforms" = "Case ???"))
  rw [if_neg g3]
  by_cases g4 : (∃ x ∈ isoform1, x = 0) ∨ (∃ x ∈ isoform2, x = 0)
  · rw [if_pos g4]
    exact (by decide :
      ¬("Case 4: Any observed junction is zero and it\x27s not all of one isoform" = "Case ???"))
  rw [if_neg g4]
  by_cases g5 : (∀ x ∈ isoform1, x ≥ min_reads) ∧ (∀ x ∈ isoform2, x < min_reads)
  · rw [if_pos g5]
    obtain ⟨t, ht⟩ := maybe_sufficient_reads_case_extends isoform1 isoform2 n_junctions min_reads
      ("Case 5: Isoform1 totally covered and isoform2 not") ("ab")
    rw [ht]
    exact append_ne_of_length_lt _ _ _ (by decide)
  rw [if_neg g5]
  by_cases g6 : (∀ x ∈ isoform1, x < min_reads) ∧ (∀ x ∈ isoform2, x ≥ min_reads)
  · rw [if_pos g6]
    obtain ⟨t, ht⟩ := maybe_sufficient_reads_case_extends isoform1 isoform2 n_junctions min_reads
      ("Case 6: Isoform2 is totally covered and isoform1 is not") ("ab")
    rw [ht]
    exact append_ne_of_length_lt _ _ _ (by decide)
  rw [if_neg g6]
  by_cases g7 : (∀ x ∈ isoform1, x ≥ min_reads) ∧ (∃ x ∈ isoform2, x < min_reads)
  · rw [if_pos g7]
    obtain ⟨t, ht⟩ := maybe_sufficient_reads_case_extends isoform1 isoform2 n_junctions min_reads
      ("Case 7: Isoform 1 is fully covered and isoform2 is questionable") ("ab")
    rw [ht]
    exact append_ne_of_length_lt _ _ _ (by decide)
  rw [if_neg g7]
  by_cases g8 : (∃ x ∈ isoform1, x < min_reads) ∧ (∀ x ∈ isoform2, x ≥ min_reads)
  · rw [if_pos g8]
    obtain ⟨t, ht⟩ := maybe_sufficient_reads_case_extends isoform1 isoform2 n_junctions min_reads
      ("Case 8: Isoform 1 is fully covered and isoform2 is questionable") ("ab")
    rw [ht]
    exact append_ne_of_length_lt _ _ _ (by decide)
  rw [if_neg g8]
  by_cases g9 : (∃ x ∈ isoform1, x < min_reads) ∨ (∃ x ∈ isoform2, x < min_reads)
  · rw [if_pos g9]
    by_cases g9a : (∀ x ∈ isoform1, x < min_reads) ∧ (∃ x ∈ isoform2, x < min_reads)
    · rw [if_pos g9a]
      exact (by decide :
        ¬("Case 9a: 3 junctions have less than minimum reads (2 on iso1 and 1 on iso2)" =
          "Case ???"))
    rw [if_neg g9a]
    by_cases g9b : (∃ x ∈ isoform1, x < min_reads) ∧ (∀ x ∈ isoform2, x < min_reads)
    · rw [if_pos g9b]
      exact (by decide :
        ¬("Case 9b: 3 junctions have less than minimum reads (2 on iso2 and one on iso1)" =
          "Case ???"))
    rw [if_neg g9b]
    obtain ⟨t, ht⟩ := maybe_sufficient_reads_case_extends isoform1 isoform2 n_junctions min_reads
      ("Case 9: Insufficient reads somehow") ("cd")
    rw [ht]
    exact append_ne_of_length_lt _ _ _ (by decide)
  rw [if_neg g9, if_neg g9]
  exfalso
  push_neg at g9
  exact g3 ⟨fun x hx => g9.1 x hx, fun x hx => g9.2 x hx⟩

/-- C7 witness: a concrete well-formed sample is classified with a defined
case. -/
theorem case_sentinel_unreachable_witness :
    (_single_isoform_maybe_reject [12] [15] 2 10 10).2.2 ≠ "Case ???" :=
  case_sentinel_unreachable [12] [15] 2 10 10 (by decide) (by decide)


/-- The two possible labels of the total-reads check, in case-prefixed
form. -/
theorem maybe_sufficient_reads_label_cases (isoform1 isoform2 : List ℕ)
    (n_junctions min_reads : ℕ) (case letters : String) :
    (_single_sample_maybe_sufficient_reads isoform1 isoform2 n_junctions min_reads
        case letters).2.2 =
      case ++ (", option " ++ (letters.take 1 ++ ": There are sufficient junction reads")) ∨
    (_single_sample_maybe_sufficient_reads isoform1 isoform2 n_junctions min_reads
        case letters).2.2 =
      case ++ (", option " ++
        ((letters.drop 1).take 1 ++ ": There are insufficient junction reads")) := by
  unfold _single_sample_maybe_sufficient_reads
  split_ifs
  · left
    rw [String.append_assoc, String.append_assoc]
  · right
    rw [String.append_assoc, String.append_assoc]

/-- C8: rule 10 is dead code.  For every pair of isoform read vectors the
Sample Classifier never produces the rule-10 outcome (Reject with the
"Case 10" insufficient-reads label): its guard is identical to the guard of
case 9 (`any(isoform1 < min_reads) or any(isoform2 < min_reads)`), which is
tested first in the elif chain, so the case-10 branch can never be
entered. -/
theorem case10_unreachable (isoform1 isoform2 : List ℕ)
    (n_junctions min_reads multiplier : ℕ) :
    (_single_isoform_maybe_reject isoform1 isoform2 n_junctions min_reads multiplier).2.2 ≠
      "Case 10: isoform1 and isoform2 don\x27t have sufficient reads" := by
  unfold _single_isoform_maybe_reject
  by_cases hc : _single_sample_check_unequal_read_coverage isoform1 multiplier = Option.none ∨
      _single_sample_check_unequal_read_coverage isoform2 multiplier = Option.none
  · rw [if_pos hc]
    exact (by decide : ¬("Case 0: Unequal read coverage" =
      "Case 10: isoform1 and isoform2 don\x27t have sufficient reads"))
  rw [if_neg hc]
  by_cases g1 : (∀ x ∈ isoform1, x ≥ min_reads) ∧ (∀ x ∈ isoform2, x = 0)
  · rw [if_pos g1]
    exact (by decide : ¬("Case 1: Perfect exclusion" =
      "Case 10: isoform1 and isoform2 don\x27t have sufficient reads"))
  rw [if_neg g1]
  by_cases g2 : (∀ x ∈ isoform1, x = 0) ∧ (∀ x ∈ isoform2, x ≥ min_reads)
  · rw [if_pos g2]
    exact (by decide : ¬("Case 2: Perfect inclusion" =
      "Case 10: isoform1 and isoform2 don\x27t have sufficient reads"))
  rw [if_neg g2]
  by_cases g3 : (∀ x ∈ isoform1, x ≥ min_reads) ∧ (∀ x ∈ isoform2, x ≥ min_reads)
  · rw [if_pos g3]
    exact (by decide : ¬("Case 3: Sufficient coverage on both isoforms" =
      "Case 10: isoform1 and isoform2 don\x27t have sufficient reads"))
  rw [if_neg g3]
  by_cases g4 : (∃ x ∈ isoform1, x = 0) ∨ (∃ x ∈ isoform2, x = 0)
  · rw [if_pos g4]
    exact (by decide :
      ¬("Case 4: Any observed junction is zero and it\x27s not all of one isoform" =
        "Case 10: isoform1 and isoform2 don\x27t have sufficient reads"))
  rw [if_neg g4]
  by_cases g5 : (∀ x ∈ isoform1, x ≥ min_reads) ∧ (∀ x ∈ isoform2, x < min_reads)
  · rw [if_pos g5]
    rcases maybe_sufficient_reads_label_cases isoform1 isoform2 n_junctions min_reads
        ("Case 5: Isoform1 totally covered and isoform2 not") ("ab") with ht | ht <;>
      rw [ht] <;> decide
  rw [if_neg g5]
  by_cases g6 : (∀ x ∈ isoform1, x < min_reads) ∧ (∀ x ∈ isoform2, x ≥ min_reads)
  · rw [if_pos g6]
    rcases maybe_sufficient_reads_label_cases isoform1 isoform2 n_junctions min_reads
        ("Case 6: Isoform2 is totally covered and isoform1 is not") ("ab") with ht | ht <;>
      rw [ht] <;> decide
  rw [if_neg g6]
  by_cases g7 : (∀ x ∈ isoform1, x ≥ min_reads) ∧ (∃ x ∈ isoform2, x < min_reads)
  · rw [if_pos g7]
    rcases maybe_sufficient_reads_label_cases isoform1 isoform2 n_junctions min_reads
        ("Case 7: Isoform 1 is fully covered and isoform2 is questionable") ("ab") with ht | ht <;>
      rw [ht] <;> decide
  rw [if_neg g7]
  by_cases g8 : (∃ x ∈ isoform1, x < min_reads) ∧ (∀ x ∈ isoform2, x ≥ min_reads)
  · rw [if_pos g8]
    rcases maybe_sufficient_reads_label_cases isoform1 isoform2 n_junctions min_reads
        ("Case 8: Isoform 1 is fully covered and isoform2 is questionable") ("ab") with ht | ht <;>
      rw [ht] <;> decide
  rw [if_neg g8]
  by_cases g9 : (∃ x ∈ isoform1, x < min_reads) ∨ (∃ x ∈ isoform2, x < min_reads)
  · rw [if_pos g9]
    by_cases g9a : (∀ x ∈ isoform1, x < min_reads) ∧ (∃ x ∈ isoform2, x < min_reads)
    · rw [if_pos g9a]
      exact (by decide :
        ¬("Case 9a: 3 junctions have less than minimum reads (2 on iso1 and 1 on iso2)" =
          "Case 10: isoform1 and isoform2 don\x27t have sufficient reads"))
    rw [if_neg g9a]
    by_cases g9b : (∃ x ∈ isoform1, x < min_reads) ∧ (∀ x ∈ isoform2, x < min_reads)
    · rw [if_pos g9b]
      exact (by decide :
        ¬("Case 9b: 3 junctions have less than minimum reads (2 on iso2 and one on iso1)" =
          "Case 10: isoform1 and isoform2 don\x27t have sufficient reads"))
    rw [if_neg g9b]
    rcases maybe_sufficient_reads_label_cases isoform1 isoform2 n_junctions min_reads
        ("Case 9: Insufficient reads somehow") ("cd") with ht | ht <;>
      rw [ht] <;> decide
  rw [if_neg g9, if_neg g9]
  exact (by decide : ¬("Case ???" =
    "Case 10: isoform1 and isoform2 don\x27t have sufficient reads"))

/-- C8 witness: a concrete insufficient-reads sample falls under case 9, not
case 10. -/
theorem case10_unreachable_witness :
    (_single_isoform_maybe_reject [3] [4] 2 10 10).2.2 ≠
      "Case 10: isoform1 and isoform2 don\x27t have sufficient reads" :=
  case10_unreachable [3] [4] 2 10 10
